import Mathlib

/-!
Shallow embedding of the booking PDF helpers of shelf.nu
(`app/modules/booking/pdf-helpers.ts`) and of the `Dialog` React component,
together with theorems about their behaviour.

Database and browser collaborators are modelled as explicit environments;
the sequencing of effects is made observable through event traces.
-/

namespace Shelf

/-- Organization roles (Prisma enum `OrganizationRoles`). -/
inductive OrganizationRoles
  | ADMIN
  | OWNER
  | SELF_SERVICE
  | BASE
deriving DecidableEq, Repr

/-- A booking row as related to an asset (used inside the `bookings` include
of `db.asset.findMany`).  `status` is the Prisma `BookingStatus` as a string,
matching the string literals in the filter; `fromDate`/`toDate` model the
nullable `from`/`to` timestamp columns as integers. -/
structure BookingRecord where
  id : String
  status : String
  fromDate : Option Int
  toDate : Option Int
deriving DecidableEq, Repr

/-- The booking returned by `getBooking({ id, organizationId })`, with the
fields `fetchAllPdfRelatedData` reads: custodian user id (nullable),
`from`/`to` timestamps (nullable), name, and the ids of its assets. -/
structure Booking where
  id : String
  name : String
  custodianUserId : Option String
  fromDate : Option Int
  toDate : Option Int
  assetIds : List String
deriving DecidableEq, Repr

/-- An asset row in the database, carrying the relations the query includes
and the full list of bookings related to the asset (before filtering). -/
structure AssetRecord where
  id : String
  category : Option String
  location : Option String
  custody : Option String
  qrCodes : List String
  bookings : List BookingRecord
deriving DecidableEq, Repr

/-- An organization logo image; `blob` is the stored byte content. -/
structure Image where
  blob : List Nat
deriving DecidableEq, Repr

/-- The organization row as selected by
`db.organization.findUnique({ select: { imageId, name, id, image } })`. -/
structure OrganizationRecord where
  id : String
  name : String
  imageId : Option String
  image : Option Image
deriving DecidableEq, Repr

/-- The structured error type `ShelfError` with the fields the code sets. -/
structure ShelfError where
  message : String
  status : Nat
  label : String
  shouldBeCaptured : Bool
deriving DecidableEq, Repr

/-- Errors thrown by `fetchAllPdfRelatedData`: either a plain
`new Error(message)` or a structured `ShelfError`. -/
inductive PdfError
  | generic (message : String)
  | shelf (e : ShelfError)
deriving DecidableEq, Repr

/-- Database queries issued by `fetchAllPdfRelatedData`, in order of issue;
the trace makes observable which queries a call performs. -/
inductive Query
  | getBookingQ
  | assetFindManyQ
  | orgFindUniqueQ
  | qrCodeMapsQ
deriving DecidableEq, Repr

/-- The database/collaborator environment: `getBooking` from
`./service.server`, the asset table, organization lookup, and
`getQrCodeMaps` from the QR service. -/
structure Env where
  getBooking : String → String → Option Booking
  assets : List AssetRecord
  organizations : String → Option OrganizationRecord
  getQrCodeMaps : List String → List (String × String)

/-- Prisma semantics of `field: { lte: y }` on a nullable column: a null
value never satisfies the comparison. -/
def optLe (x : Option Int) (y : Int) : Bool :=
  match x with
  | some v => v ≤ y
  | none => false

/-- Prisma semantics of `field: { gte: y }` on a nullable column. -/
def optGe (x : Option Int) (y : Int) : Bool :=
  match x with
  | some v => y ≤ v
  | none => false

/-- The status filter `status: { in: ["RESERVED", "ONGOING", "OVERDUE"] }`. -/
def statusActive (s : String) : Bool :=
  s = "RESERVED" || s = "ONGOING" || s = "OVERDUE"

/-- The two-branch `OR` of the bookings filter, on plain integers:
`[{ from: { lte: to1 }, to: { gte: from1 } }, { from: { gte: from1 }, to: { lte: to1 } }]`
where interval 1 is the current booking and interval 2 the candidate. -/
def overlapTwoBranch (from1 to1 from2 to2 : Int) : Bool :=
  (decide (from2 ≤ to1) && decide (from1 ≤ to2)) ||
  (decide (from1 ≤ from2) && decide (to2 ≤ to1))

/-- Modelled from the spec: the single inclusive-intersection test
`from1 <= to2 AND to1 >= from2`. -/
def overlapSingleSpec (from1 to1 from2 to2 : Int) : Bool :=
  decide (from1 ≤ to2) && decide (from2 ≤ to1)

/-- The `where` clause of the per-asset `bookings` include: when the current
booking has both `from` and `to` set, restrict to active statuses and the
two-branch overlap disjunction; otherwise the empty condition `{}`. -/
def bookingsWhere (cur : Booking) (b : BookingRecord) : Bool :=
  match cur.fromDate, cur.toDate with
  | some f, some t =>
      statusActive b.status &&
      ((optLe b.fromDate t && optGe b.toDate f) ||
       (optGe b.fromDate f && optLe b.toDate t))
  | _, _ => true

/-- `db.asset.findMany` with `id: { in: booking.assets.map(a => a.id) }` and
the `bookings` include filtered by `bookingsWhere`. -/
def assetFindMany (env : Env) (cur : Booking) : List AssetRecord :=
  (env.assets.filter (fun a => cur.assetIds.contains a.id)).map
    (fun a => { a with bookings := a.bookings.filter (bookingsWhere cur) })

/-- The composite result `PdfDbResult`. -/
structure PdfDbResult where
  booking : Booking
  assets : List AssetRecord
  organization : Option OrganizationRecord
  assetIdToQrCodeMap : List (String × String)
deriving Repr

/-- `fetchAllPdfRelatedData(bookingId, organizationId, userId, role)`:
fetch the booking (throw a plain error if absent), reject self-service
callers that are not the custodian with a `ShelfError` (403, label
`Booking`, not captured), then fetch assets and organization and resolve
the QR-code map.  Returns the outcome together with the trace of database
queries performed. -/
def fetchAllPdfRelatedData (env : Env) (bookingId organizationId userId : String)
    (role : Option OrganizationRoles) :
    Except PdfError PdfDbResult × List Query :=
  match env.getBooking bookingId organizationId with
  | none => (.error (.generic "Booking not found"), [.getBookingQ])
  | some booking =>
    if role = some OrganizationRoles.SELF_SERVICE ∧
        booking.custodianUserId ≠ some userId then
      (.error (.shelf
        { message := "You are not authorized to view this booking"
          status := 403
          label := "Booking"
          shouldBeCaptured := false }),
       [.getBookingQ])
    else
      let assets := assetFindMany env booking
      let organization := env.organizations organizationId
      let assetIdToQrCodeMap := env.getQrCodeMaps (assets.map (·.id))
      (.ok { booking, assets, organization, assetIdToQrCodeMap },
       [.getBookingQ, .assetFindManyQ, .orgFindUniqueQ, .qrCodeMapsQ])

/-- JavaScript `s || alt` for strings: the empty string is falsy. -/
def jsStrOr (s alt : String) : String :=
  if s = "" then alt else s

/-- JavaScript `s || alt` where `s : string | undefined`. -/
def jsOptStrOr (s : Option String) (alt : String) : String :=
  match s with
  | some v => jsStrOr v alt
  | none => alt

/-- The standard base64 alphabet used by `Buffer.toString("base64")`. -/
def base64Chars : List Char :=
  "ABCDEFGHIJKLMNOPQRSTUVWXYZabcdefghijklmnopqrstuvwxyz0123456789+/".toList

/-- The base64 digit for a 6-bit value. -/
def base64CharOf (n : Nat) : Char :=
  base64Chars.getD n 'A'

/-- Base64 encoding of a byte list, RFC 4648 with `=` padding, as produced
by Node's `Buffer.prototype.toString("base64")`. -/
def base64EncodeList : List Nat → List Char
  | [] => []
  | [b1] =>
      [base64CharOf (b1 / 4), base64CharOf (b1 % 4 * 16), '=', '=']
  | [b1, b2] =>
      [base64CharOf (b1 / 4), base64CharOf (b1 % 4 * 16 + b2 / 16),
       base64CharOf (b2 % 16 * 4), '=']
  | b1 :: b2 :: b3 :: rest =>
      base64CharOf (b1 / 4) :: base64CharOf (b1 % 4 * 16 + b2 / 16) ::
      base64CharOf (b2 % 16 * 4 + b3 / 64) :: base64CharOf (b3 % 64) ::
      base64EncodeList rest

/-- `blob.toString("base64")`. -/
def base64Encode (bs : List Nat) : String :=
  String.mk (base64EncodeList bs)

/-- The literal text of the header template from the start of the template
literal up to and including `<img src="`. -/
def headerPrefix : String :=
  "\n        <style>\n            .header \x7b\n                font-size: 10px;\n                text-align: right;\n                width: 100%;\n                padding: 0 20px;\n                display: flex;\n                justify-content: space-between;\n                align-items: center;\n                box-sizing: border-box;\n                margin-bottom:30px;\n            \x7d\n            .header img \x7b\n                height: 40px;\n                width: 40px;\n                object-fit: cover\n            \x7d\n            .header .text \x7b\n                text-align: right;\n                color: rgba(0, 0, 0, 0.6);\n            \x7d\n        </style>\n        <div class=\"header\">\n            <img src=\""

/-- The literal text between the `src` value and the booking-name slot. -/
def headerAfterSrc : String :=
  "\" alt=\"logo\">\n            <span class=\"text\">"

/-- The literal text after the booking-name slot to the end. -/
def headerSuffix : String :=
  " | <span class=\"date\"></span> | Page <span class=\"pageNumber\"></span>/<span class=\"totalPages\"></span></span>\n        </div>\n    "

/-- `getBookingAssetsCustomHeader({ organization, booking })`: the logo is
embedded as a base64 `data:` URI when `organization?.image?.blob` is
present, else the image source is empty; the booking name (or empty) fills
the text slot. -/
def getBookingAssetsCustomHeader (r : PdfDbResult) : String :=
  let orgImageBlob : Option (List Nat) :=
    r.organization.bind (fun o => o.image.map (fun i => i.blob))
  let base64Image : String :=
    match orgImageBlob with
    | some b => "data:image/png;base64," ++ base64Encode b
    | none => ""
  headerPrefix ++ base64Image ++ headerAfterSrc ++
    jsStrOr r.booking.name "" ++ headerSuffix

/-- The options object passed to `newPage.pdf`.  `margin` is the merged
margin record as a string-keyed partial map. -/
structure PdfOptions where
  format : String
  displayHeaderFooter : Bool
  headerTemplate : String
  margin : String → Option String

/-- Browser-automation steps completed during `generatePdfContent`; the
trace makes the lifecycle observable. -/
inductive BrowserEvent
  | launch
  | newPage
  | setContent
  | pdfExport
  | close
deriving DecidableEq, Repr

/-- The headless-browser collaborator: each step may throw, and the PDF
export sees the options it is invoked with. -/
structure BrowserEnv where
  launchResult : Except String Unit
  setContentResult : String → Except String Unit
  pdfResult : PdfOptions → Except String (List Nat)

/-- The default margin record `{ top: "80px", bottom: "30px", left: "20px", right: "20px" }`. -/
def defaultMargin (k : String) : Option String :=
  if k = "top" then some "80px"
  else if k = "bottom" then some "30px"
  else if k = "left" then some "20px"
  else if k = "right" then some "20px"
  else none

/-- The spread `{ ...defaults, ...(styles || \x7b\x7d) }`: keys present in the
caller-supplied record replace the defaults.  A record is modelled as an
association list with unique keys. -/
def spreadMargin (styles : Option (List (String × String))) (k : String) :
    Option String :=
  match List.lookup k (styles.getD []) with
  | some v => some v
  | none => defaultMargin k

/-- Outcome of `generatePdfContent`: the returned buffer or thrown error,
the trace of completed browser steps, and the options passed to the PDF
export when that call was reached. -/
structure GenOutcome where
  result : Except String (List Nat)
  trace : List BrowserEvent
  pdfOptions : Option PdfOptions

/-- `generatePdfContent(htmlContent, headerTemplate?, styles?)`: launch,
open a page, set content, export the PDF with format A4, header/footer
display, `headerTemplate || ""` and merged margins, then close the
browser.  Any throwing step aborts the sequence there; the close step runs
only after a successful export. -/
def generatePdfContent (env : BrowserEnv) (htmlContent : String)
    (headerTemplate : Option String)
    (styles : Option (List (String × String))) : GenOutcome :=
  match env.launchResult with
  | .error e => { result := .error e, trace := [], pdfOptions := none }
  | .ok _ =>
    match env.setContentResult htmlContent with
    | .error e =>
        { result := .error e
          trace := [.launch, .newPage]
          pdfOptions := none }
    | .ok _ =>
      let opts : PdfOptions :=
        { format := "A4"
          displayHeaderFooter := true
          headerTemplate := jsOptStrOr headerTemplate ""
          margin := spreadMargin styles }
      match env.pdfResult opts with
      | .error e =>
          { result := .error e
            trace := [.launch, .newPage, .setContent]
            pdfOptions := some opts }
      | .ok buf =>
          { result := .ok buf
            trace := [.launch, .newPage, .setContent, .pdfExport, .close]
            pdfOptions := some opts }

/-- A rendered React node: text, or an element with a tag, class, an
optional click handler that navigates to a route, and children. -/
inductive VNode
  | text (s : String)
  | elem (tag : String) (className : String) (onClickNavigatesTo : Option String)
      (children : List VNode)

/-- The `XIcon` child of the close button. -/
def xIcon : VNode :=
  .elem "XIcon" "" none []

/-- The `Button` linking back to the previous route. -/
def closeButton (prevRoute : String) : VNode :=
  .elem "Button"
    "absolute right-4 top-[16px] leading-none text-gray-500 md:right-6 md:top-[26px]"
    (some prevRoute) [xIcon]

/-- Whether a render result's root node carries a click handler. -/
def rendersBackdropHandler : Option VNode → Bool
  | none => false
  | some (.elem _ _ onClick _) => onClick.isSome
  | some (.text _) => false

/-- The `Dialog` component: when `open` is true it renders the backdrop
`div` (whose click handler navigates to the previous route) containing the
`dialog` element with the close button and the children; otherwise it
renders `null`. -/
def Dialog (children : VNode) («open» : Bool) (prevRoute : String) :
    Option VNode :=
  if «open» then
    some (.elem "div" "dialog-backdrop" (some prevRoute)
      [.elem "dialog" "dialog" none [closeButton prevRoute, children]])
  else none

/-! ### Helper lemmas -/

/-- For a candidate interval with `from2 ≤ to2`, the two-branch filter
disjunction agrees with the single inclusive-intersection test. -/
lemma overlap_aux (from1 to1 from2 to2 : Int) (h2 : from2 ≤ to2) :
    overlapTwoBranch from1 to1 from2 to2 = true ↔
      overlapSingleSpec from1 to1 from2 to2 = true := by
  simp only [overlapTwoBranch, overlapSingleSpec, Bool.or_eq_true,
    Bool.and_eq_true, decide_eq_true_eq]
  omega

/-- When the current booking has both dates, the bookings filter reduces to
active status plus the two-branch overlap test on present dates. -/
lemma bookingsWhere_some_iff (b : Booking) (f t : Int)
    (hf : b.fromDate = some f) (ht : b.toDate = some t) (br : BookingRecord) :
    bookingsWhere b br = true ↔
      (statusActive br.status = true ∧ ∃ bf bt, br.fromDate = some bf ∧
        br.toDate = some bt ∧ overlapTwoBranch f t bf bt = true) := by
  unfold bookingsWhere
  rw [hf, ht]
  cases hbf : br.fromDate with
  | none => simp [optLe, optGe]
  | some bf =>
    cases hbt : br.toDate with
    | none => simp [optLe, optGe]
    | some bt =>
      simp [optLe, optGe, overlapTwoBranch, Bool.and_eq_true, Bool.or_eq_true,
        decide_eq_true_eq]

/-- When the current booking misses a date, the bookings filter is the empty
condition and accepts every record. -/
lemma bookingsWhere_true_of_none (b : Booking)
    (h : b.fromDate = none ∨ b.toDate = none) (br : BookingRecord) :
    bookingsWhere b br = true := by
  cases hft : b.fromDate <;> cases htt : b.toDate <;>
    simp [bookingsWhere, hft, htt] <;> rcases h with h | h <;> simp_all

/-! ### Claims -/

/-- Claim C2: for timestamps `from1 ≤ to1` and `from2 ≤ to2`, the
two-branch disjunction of the overlap filter is logically equivalent to the
single inclusive-intersection test `from1 ≤ to2 AND to1 ≥ from2`. -/
theorem overlapTwoBranch_equiv_overlapSingleSpec
    (from1 to1 from2 to2 : Int) (h1 : from1 ≤ to1) (h2 : from2 ≤ to2) :
    overlapTwoBranch from1 to1 from2 to2 = true ↔
      overlapSingleSpec from1 to1 from2 to2 = true :=
  overlap_aux from1 to1 from2 to2 h2

/-- Witness for C2 at `[0,10]` versus `[5,15]`. -/
theorem overlapTwoBranch_equiv_overlapSingleSpec_witness :
    (0 : Int) ≤ 10 ∧ (5 : Int) ≤ 15 ∧
      (overlapTwoBranch 0 10 5 15 = true ↔ overlapSingleSpec 0 10 5 15 = true) :=
  ⟨by decide, by decide,
    overlapTwoBranch_equiv_overlapSingleSpec 0 10 5 15 (by decide) (by decide)⟩

/-- Claim C1: a `SELF_SERVICE` caller who is not the booking's custodian is
rejected with a `ShelfError` of status 403, label `Booking`,
`shouldBeCaptured = false`, and the asset and organization queries are not
performed. -/
theorem fetchAllPdfRelatedData_selfService_forbidden
    (env : Env) (bookingId organizationId userId : String) (b : Booking)
    (hb : env.getBooking bookingId organizationId = some b)
    (hcust : b.custodianUserId ≠ some userId) :
    fetchAllPdfRelatedData env bookingId organizationId userId
        (some OrganizationRoles.SELF_SERVICE) =
      (.error (.shelf
        { message := "You are not authorized to view this booking"
          status := 403
          label := "Booking"
          shouldBeCaptured := false }), [Query.getBookingQ]) ∧
    Query.assetFindManyQ ∉ (fetchAllPdfRelatedData env bookingId organizationId
        userId (some OrganizationRoles.SELF_SERVICE)).2 ∧
    Query.orgFindUniqueQ ∉ (fetchAllPdfRelatedData env bookingId organizationId
        userId (some OrganizationRoles.SELF_SERVICE)).2 := by
  have hmain : fetchAllPdfRelatedData env bookingId organizationId userId
      (some OrganizationRoles.SELF_SERVICE) =
      (.error (.shelf
        { message := "You are not authorized to view this booking"
          status := 403
          label := "Booking"
          shouldBeCaptured := false }), [Query.getBookingQ]) := by
    simp only [fetchAllPdfRelatedData, hb]
    rw [if_pos ⟨trivial, hcust⟩]
  refine ⟨hmain, ?_, ?_⟩ <;> rw [hmain] <;> simp

/-- Claim C9: when no booking exists for the given id and organization, the
call fails with the plain error `Booking not found` (not the structured
error type) and performs no further queries. -/
theorem fetchAllPdfRelatedData_not_found
    (env : Env) (bookingId organizationId userId : String)
    (role : Option OrganizationRoles)
    (hb : env.getBooking bookingId organizationId = none) :
    fetchAllPdfRelatedData env bookingId organizationId userId role =
      (.error (.generic "Booking not found"), [Query.getBookingQ]) ∧
    (∀ e, (fetchAllPdfRelatedData env bookingId organizationId userId role).1 ≠
      .error (.shelf e)) ∧
    Query.assetFindManyQ ∉
      (fetchAllPdfRelatedData env bookingId organizationId userId role).2 ∧
    Query.orgFindUniqueQ ∉
      (fetchAllPdfRelatedData env bookingId organizationId userId role).2 ∧
    Query.qrCodeMapsQ ∉
      (fetchAllPdfRelatedData env bookingId organizationId userId role).2 := by
  have hmain : fetchAllPdfRelatedData env bookingId organizationId userId role =
      (.error (.generic "Booking not found"), [Query.getBookingQ]) := by
    simp only [fetchAllPdfRelatedData, hb]
  refine ⟨hmain, ?_, ?_, ?_, ?_⟩ <;> rw [hmain] <;> simp

/-! ### Sample data for witnesses -/

/-- A sample booking with custodian `u1` and window `[0, 10]`. -/
def sampleBooking : Booking :=
  { id := "b1", name := "Camera kit", custodianUserId := some "u1"
    fromDate := some 0, toDate := some 10, assetIds := ["a1"] }

/-- A sample booking with no dates set. -/
def sampleBookingNoDates : Booking :=
  { id := "b9", name := "Tripod", custodianUserId := some "u1"
    fromDate := none, toDate := none, assetIds := ["a1"] }

/-- A sample asset related to three bookings: one overlapping and active,
one overlapping but draft, one active but outside the window. -/
def sampleAsset : AssetRecord :=
  { id := "a1", category := none, location := none, custody := none
    qrCodes := []
    bookings :=
      [{ id := "b2", status := "RESERVED", fromDate := some 5, toDate := some 15 },
       { id := "b3", status := "DRAFT", fromDate := some 5, toDate := some 15 },
       { id := "b4", status := "RESERVED", fromDate := some 20, toDate := some 30 }] }

/-- A sample environment for the booking-fetch witnesses. -/
def sampleEnv : Env :=
  { getBooking := fun bid oid =>
      if bid = "b1" ∧ oid = "o1" then some sampleBooking
      else if bid = "b9" ∧ oid = "o1" then some sampleBookingNoDates
      else none
    assets := [sampleAsset]
    organizations := fun _ => none
    getQrCodeMaps := fun ids => ids.map (fun i => (i, "qr")) }

/-- Witness for C1: a self-service caller `u2` on a booking custodied by
`u1` receives the 403 `ShelfError` and no asset/organization queries run. -/
theorem fetchAllPdfRelatedData_selfService_forbidden_witness :
    sampleEnv.getBooking "b1" "o1" = some sampleBooking ∧
    sampleBooking.custodianUserId ≠ some "u2" ∧
    (fetchAllPdfRelatedData sampleEnv "b1" "o1" "u2"
        (some OrganizationRoles.SELF_SERVICE) =
      (.error (.shelf
        { message := "You are not authorized to view this booking"
          status := 403
          label := "Booking"
          shouldBeCaptured := false }), [Query.getBookingQ]) ∧
      Query.assetFindManyQ ∉ (fetchAllPdfRelatedData sampleEnv "b1" "o1" "u2"
          (some OrganizationRoles.SELF_SERVICE)).2 ∧
      Query.orgFindUniqueQ ∉ (fetchAllPdfRelatedData sampleEnv "b1" "o1" "u2"
          (some OrganizationRoles.SELF_SERVICE)).2) :=
  ⟨rfl, by simp [sampleBooking],
    fetchAllPdfRelatedData_selfService_forbidden sampleEnv "b1" "o1" "u2"
      sampleBooking rfl (by simp [sampleBooking])⟩

/-- Witness for C9: an unknown booking id yields the plain not-found error
with only the booking query performed. -/
theorem fetchAllPdfRelatedData_not_found_witness :
    sampleEnv.getBooking "nope" "o1" = none ∧
    (fetchAllPdfRelatedData sampleEnv "nope" "o1" "u1" none =
      (.error (.generic "Booking not found"), [Query.getBookingQ]) ∧
      (∀ e, (fetchAllPdfRelatedData sampleEnv "nope" "o1" "u1" none).1 ≠
        .error (.shelf e)) ∧
      Query.assetFindManyQ ∉
        (fetchAllPdfRelatedData sampleEnv "nope" "o1" "u1" none).2 ∧
      Query.orgFindUniqueQ ∉
        (fetchAllPdfRelatedData sampleEnv "nope" "o1" "u1" none).2 ∧
      Query.qrCodeMapsQ ∉
        (fetchAllPdfRelatedData sampleEnv "nope" "o1" "u1" none).2) :=
  ⟨rfl, fetchAllPdfRelatedData_not_found sampleEnv "nope" "o1" "u1" none rfl⟩

/-- Inversion of a successful `fetchAllPdfRelatedData` call: the booking
was found, and the result carries it with the filtered asset list. -/
lemma fetchAll_ok_inv (env : Env) (bookingId organizationId userId : String)
    (role : Option OrganizationRoles) (r : PdfDbResult)
    (hr : (fetchAllPdfRelatedData env bookingId organizationId userId role).1 =
      .ok r) :
    env.getBooking bookingId organizationId = some r.booking ∧
    r.assets = assetFindMany env r.booking := by
  cases hgb : env.getBooking bookingId organizationId with
  | none =>
    simp only [fetchAllPdfRelatedData, hgb] at hr
    exact absurd hr (by simp)
  | some b =>
    simp only [fetchAllPdfRelatedData, hgb] at hr
    by_cases hcond : role = some OrganizationRoles.SELF_SERVICE ∧
        b.custodianUserId ≠ some userId
    · rw [if_pos hcond] at hr
      exact absurd hr (by simp)
    · rw [if_neg hcond] at hr
      simp only [Except.ok.injEq] at hr
      subst hr
      exact ⟨rfl, rfl⟩

/-- Claim C3: with both dates set on the fetched booking, each returned
asset's bookings are exactly the asset's bookings with an active status
whose present interval inclusively intersects the booking's window. -/
theorem fetchAllPdfRelatedData_window_filter
    (env : Env) (bookingId organizationId userId : String)
    (role : Option OrganizationRoles) (r : PdfDbResult) (f t : Int)
    (hr : (fetchAllPdfRelatedData env bookingId organizationId userId role).1 =
      .ok r)
    (hf : r.booking.fromDate = some f) (ht : r.booking.toDate = some t)
    (hwf : ∀ a ∈ env.assets, ∀ br ∈ a.bookings, ∀ bf bt,
      br.fromDate = some bf → br.toDate = some bt → bf ≤ bt) :
    ∀ a ∈ r.assets, ∃ ar, ar ∈ env.assets ∧ ar.id = a.id ∧
      ∀ br, br ∈ a.bookings ↔
        (br ∈ ar.bookings ∧ statusActive br.status = true ∧
          ∃ bf bt, br.fromDate = some bf ∧ br.toDate = some bt ∧
            overlapSingleSpec f t bf bt = true) := by
  obtain ⟨-, hassets⟩ :=
    fetchAll_ok_inv env bookingId organizationId userId role r hr
  intro a ha
  rw [hassets] at ha
  unfold assetFindMany at ha
  rw [List.mem_map] at ha
  obtain ⟨ar, harf, rfl⟩ := ha
  rw [List.mem_filter] at harf
  obtain ⟨harMem, -⟩ := harf
  refine ⟨ar, harMem, rfl, fun br => ?_⟩
  simp only [List.mem_filter]
  constructor
  · rintro ⟨hmem, hbw⟩
    rw [bookingsWhere_some_iff r.booking f t hf ht br] at hbw
    obtain ⟨hst, bf, bt, hbf, hbt, hov⟩ := hbw
    have hw := hwf ar harMem br hmem bf bt hbf hbt
    exact ⟨hmem, hst, bf, bt, hbf, hbt, (overlap_aux f t bf bt hw).mp hov⟩
  · rintro ⟨hmem, hst, bf, bt, hbf, hbt, hov⟩
    have hw := hwf ar harMem br hmem bf bt hbf hbt
    refine ⟨hmem, ?_⟩
    rw [bookingsWhere_some_iff r.booking f t hf ht br]
    exact ⟨hst, bf, bt, hbf, hbt, (overlap_aux f t bf bt hw).mpr hov⟩

/-- Claim C4: when the fetched booking's dates are not both set, each
returned asset carries all of its bookings, unfiltered. -/
theorem fetchAllPdfRelatedData_no_window_unfiltered
    (env : Env) (bookingId organizationId userId : String)
    (role : Option OrganizationRoles) (r : PdfDbResult)
    (hr : (fetchAllPdfRelatedData env bookingId organizationId userId role).1 =
      .ok r)
    (hnf : r.booking.fromDate = none ∨ r.booking.toDate = none) :
    ∀ a ∈ r.assets, ∃ ar, ar ∈ env.assets ∧ ar.id = a.id ∧
      a.bookings = ar.bookings := by
  obtain ⟨-, hassets⟩ :=
    fetchAll_ok_inv env bookingId organizationId userId role r hr
  intro a ha
  rw [hassets] at ha
  unfold assetFindMany at ha
  rw [List.mem_map] at ha
  obtain ⟨ar, harf, rfl⟩ := ha
  rw [List.mem_filter] at harf
  obtain ⟨harMem, -⟩ := harf
  refine ⟨ar, harMem, rfl, ?_⟩
  exact List.filter_eq_self.mpr
    (fun br _ => bookingsWhere_true_of_none r.booking hnf br)

/-- The concrete result of fetching booking `b1` from the sample
environment: only the overlapping active booking `b2` survives the
filter. -/
def sampleResult : PdfDbResult :=
  { booking := sampleBooking
    assets := [{ sampleAsset with bookings :=
      [{ id := "b2", status := "RESERVED", fromDate := some 5, toDate := some 15 }] }]
    organization := none
    assetIdToQrCodeMap := [("a1", "qr")] }

/-- The concrete result of fetching the date-less booking `b9`: every
booking of the asset is returned. -/
def sampleResultNoDates : PdfDbResult :=
  { booking := sampleBookingNoDates
    assets := [sampleAsset]
    organization := none
    assetIdToQrCodeMap := [("a1", "qr")] }

/-- All sample booking records carry well-formed intervals. -/
lemma sampleEnv_wellFormed :
    ∀ a ∈ sampleEnv.assets, ∀ br ∈ a.bookings, ∀ bf bt,
      br.fromDate = some bf → br.toDate = some bt → bf ≤ bt := by
  intro a ha br hbr bf bt hbf hbt
  simp only [sampleEnv, List.mem_singleton] at ha
  subst ha
  simp only [sampleAsset, List.mem_cons, List.not_mem_nil, or_false] at hbr
  rcases hbr with rfl | rfl | rfl <;> simp_all <;> omega

/-- Witness for C3 at the sample environment and booking `b1`. -/
theorem fetchAllPdfRelatedData_window_filter_witness :
    (fetchAllPdfRelatedData sampleEnv "b1" "o1" "u1" none).1 = .ok sampleResult ∧
    sampleResult.booking.fromDate = some 0 ∧
    sampleResult.booking.toDate = some 10 ∧
    (∀ a ∈ sampleEnv.assets, ∀ br ∈ a.bookings, ∀ bf bt,
      br.fromDate = some bf → br.toDate = some bt → bf ≤ bt) ∧
    (∀ a ∈ sampleResult.assets, ∃ ar, ar ∈ sampleEnv.assets ∧ ar.id = a.id ∧
      ∀ br, br ∈ a.bookings ↔
        (br ∈ ar.bookings ∧ statusActive br.status = true ∧
          ∃ bf bt, br.fromDate = some bf ∧ br.toDate = some bt ∧
            overlapSingleSpec 0 10 bf bt = true)) :=
  ⟨rfl, rfl, rfl, sampleEnv_wellFormed,
    fetchAllPdfRelatedData_window_filter sampleEnv "b1" "o1" "u1" none
      sampleResult 0 10 rfl rfl rfl sampleEnv_wellFormed⟩

/-- Witness for C4 at the sample environment and the date-less booking
`b9`. -/
theorem fetchAllPdfRelatedData_no_window_unfiltered_witness :
    (fetchAllPdfRelatedData sampleEnv "b9" "o1" "u1" none).1 =
      .ok sampleResultNoDates ∧
    (sampleResultNoDates.booking.fromDate = none ∨
      sampleResultNoDates.booking.toDate = none) ∧
    (∀ a ∈ sampleResultNoDates.assets, ∃ ar, ar ∈ sampleEnv.assets ∧
      ar.id = a.id ∧ a.bookings = ar.bookings) :=
  ⟨rfl, Or.inl rfl,
    fetchAllPdfRelatedData_no_window_unfiltered sampleEnv "b9" "o1" "u1" none
      sampleResultNoDates rfl (Or.inl rfl)⟩

/-- Claim C5: the browser is closed only on the success path; a throwing
content-set or PDF export propagates its error unchanged and the close
step is skipped. -/
theorem generatePdfContent_close_only_on_success
    (env : BrowserEnv) (html : String) (hdr : Option String)
    (styles : Option (List (String × String)))
    (hlaunch : env.launchResult = .ok ()) :
    (∀ e, env.setContentResult html = .error e →
      (generatePdfContent env html hdr styles).result = .error e ∧
      BrowserEvent.close ∉ (generatePdfContent env html hdr styles).trace) ∧
    (∀ e, env.setContentResult html = .ok () →
      (∀ o, env.pdfResult o = .error e) →
      (generatePdfContent env html hdr styles).result = .error e ∧
      BrowserEvent.close ∉ (generatePdfContent env html hdr styles).trace) ∧
    (∀ buf, env.setContentResult html = .ok () →
      (∀ o, env.pdfResult o = .ok buf) →
      (generatePdfContent env html hdr styles).result = .ok buf ∧
      BrowserEvent.close ∈ (generatePdfContent env html hdr styles).trace) := by
  refine ⟨fun e hset => ?_, fun e hset hpdf => ?_, fun buf hset hpdf => ?_⟩
  · simp [generatePdfContent, hlaunch, hset]
  · simp [generatePdfContent, hlaunch, hset, hpdf]
  · simp [generatePdfContent, hlaunch, hset, hpdf]

/-- An always-succeeding browser environment. -/
def okBrowserEnv : BrowserEnv :=
  { launchResult := .ok ()
    setContentResult := fun _ => .ok ()
    pdfResult := fun _ => .ok [37, 80, 68, 70] }

/-- A browser environment whose content-set step throws. -/
def failingSetContentEnv : BrowserEnv :=
  { launchResult := .ok ()
    setContentResult := fun _ => .error "set content failed"
    pdfResult := fun _ => .ok [37, 80, 68, 70] }

/-- Witness for C5: a failing content-set leaves the browser unclosed and
propagates the error. -/
theorem generatePdfContent_close_only_on_success_witness :
    failingSetContentEnv.launchResult = .ok () ∧
    failingSetContentEnv.setContentResult "<html></html>" =
      .error "set content failed" ∧
    ((generatePdfContent failingSetContentEnv "<html></html>" none none).result =
      .error "set content failed" ∧
     BrowserEvent.close ∉
      (generatePdfContent failingSetContentEnv "<html></html>" none none).trace) :=
  ⟨rfl, rfl,
    (generatePdfContent_close_only_on_success failingSetContentEnv
      "<html></html>" none none rfl).1 "set content failed" rfl⟩

/-- Claim C6: the supplied header template string reaches the PDF export
unchanged; an omitted template becomes the empty string. -/
theorem generatePdfContent_headerTemplate_passthrough
    (env : BrowserEnv) (html : String)
    (styles : Option (List (String × String)))
    (hlaunch : env.launchResult = .ok ())
    (hset : env.setContentResult html = .ok ()) :
    (∀ s, ∃ o, (generatePdfContent env html (some s) styles).pdfOptions =
      some o ∧ o.headerTemplate = s) ∧
    (∃ o, (generatePdfContent env html none styles).pdfOptions = some o ∧
      o.headerTemplate = "") := by
  constructor
  · intro s
    simp only [generatePdfContent, hlaunch, hset]
    cases env.pdfResult
        { format := "A4", displayHeaderFooter := true
          headerTemplate := jsOptStrOr (some s) ""
          margin := spreadMargin styles } <;>
      exact ⟨_, rfl, by by_cases hs : s = "" <;> simp [jsOptStrOr, jsStrOr, hs]⟩
  · simp only [generatePdfContent, hlaunch, hset]
    cases env.pdfResult
        { format := "A4", displayHeaderFooter := true
          headerTemplate := jsOptStrOr none ""
          margin := spreadMargin styles } <;>
      exact ⟨_, rfl, rfl⟩

/-- Witness for C6 at the always-succeeding environment. -/
theorem generatePdfContent_headerTemplate_passthrough_witness :
    okBrowserEnv.launchResult = .ok () ∧
    okBrowserEnv.setContentResult "<p>hi</p>" = .ok () ∧
    ((∀ s, ∃ o, (generatePdfContent okBrowserEnv "<p>hi</p>" (some s) none).pdfOptions =
        some o ∧ o.headerTemplate = s) ∧
     (∃ o, (generatePdfContent okBrowserEnv "<p>hi</p>" none none).pdfOptions =
        some o ∧ o.headerTemplate = "")) :=
  ⟨rfl, rfl,
    generatePdfContent_headerTemplate_passthrough okBrowserEnv "<p>hi</p>"
      none rfl rfl⟩

/-- Claim C8: the margins passed to the PDF export default to top 80px,
bottom 30px, left 20px, right 20px, each overridden by a matching key in
the caller-supplied styles record. -/
theorem generatePdfContent_margins
    (env : BrowserEnv) (html : String) (hdr : Option String)
    (styles : Option (List (String × String)))
    (hlaunch : env.launchResult = .ok ())
    (hset : env.setContentResult html = .ok ()) :
    ∃ o, (generatePdfContent env html hdr styles).pdfOptions = some o ∧
      (∀ k v, List.lookup k (styles.getD []) = some v → o.margin k = some v) ∧
      (List.lookup "top" (styles.getD []) = none → o.margin "top" = some "80px") ∧
      (List.lookup "bottom" (styles.getD []) = none →
        o.margin "bottom" = some "30px") ∧
      (List.lookup "left" (styles.getD []) = none →
        o.margin "left" = some "20px") ∧
      (List.lookup "right" (styles.getD []) = none →
        o.margin "right" = some "20px") := by
  simp only [generatePdfContent, hlaunch, hset]
  cases env.pdfResult
      { format := "A4", displayHeaderFooter := true
        headerTemplate := jsOptStrOr hdr ""
        margin := spreadMargin styles } <;>
    exact ⟨_, rfl,
      fun k v hkv => by simp [spreadMargin, hkv],
      fun h => by simp [spreadMargin, defaultMargin, h],
      fun h => by simp [spreadMargin, defaultMargin, h],
      fun h => by simp [spreadMargin, defaultMargin, h],
      fun h => by simp [spreadMargin, defaultMargin, h]⟩

/-- Witness for C8 with a caller-supplied `top` override. -/
theorem generatePdfContent_margins_witness :
    okBrowserEnv.launchResult = .ok () ∧
    okBrowserEnv.setContentResult "<p>hi</p>" = .ok () ∧
    (∃ o, (generatePdfContent okBrowserEnv "<p>hi</p>" none
        (some [("top", "5px")])).pdfOptions = some o ∧
      (∀ k v, List.lookup k ((some [("top", "5px")] :
          Option (List (String × String))).getD []) = some v →
        o.margin k = some v) ∧
      (List.lookup "top" ((some [("top", "5px")] :
          Option (List (String × String))).getD []) = none →
        o.margin "top" = some "80px") ∧
      (List.lookup "bottom" ((some [("top", "5px")] :
          Option (List (String × String))).getD []) = none →
        o.margin "bottom" = some "30px") ∧
      (List.lookup "left" ((some [("top", "5px")] :
          Option (List (String × String))).getD []) = none →
        o.margin "left" = some "20px") ∧
      (List.lookup "right" ((some [("top", "5px")] :
          Option (List (String × String))).getD []) = none →
        o.margin "right" = some "20px")) :=
  ⟨rfl, rfl,
    generatePdfContent_margins okBrowserEnv "<p>hi</p>" none
      (some [("top", "5px")]) rfl rfl⟩

/-- Claim C7: without a logo blob the header's `img src` value is empty;
with a blob it is the `data:image/png;base64,` URI of the stored bytes.
`headerPrefix` ends with `<img src="` and `headerAfterSrc` opens with the
closing quote, so the middle string is exactly the `src` attribute. -/
theorem getBookingAssetsCustomHeader_img_src (r : PdfDbResult) :
    (r.organization.bind (fun o => o.image.map (fun i => i.blob)) = none →
      getBookingAssetsCustomHeader r =
        headerPrefix ++ "" ++ headerAfterSrc ++
          jsStrOr r.booking.name "" ++ headerSuffix) ∧
    (∀ b, r.organization.bind (fun o => o.image.map (fun i => i.blob)) = some b →
      getBookingAssetsCustomHeader r =
        headerPrefix ++ ("data:image/png;base64," ++ base64Encode b) ++
          headerAfterSrc ++ jsStrOr r.booking.name "" ++ headerSuffix) := by
  constructor
  · intro h
    simp [getBookingAssetsCustomHeader, h]
  · intro b h
    simp [getBookingAssetsCustomHeader, h]

/-- A sample organization carrying the logo bytes of the ASCII string
`Man`, whose base64 encoding is `TWFu`. -/
def sampleOrgWithLogo : OrganizationRecord :=
  { id := "o1", name := "Acme", imageId := some "img1"
    image := some { blob := [77, 97, 110] } }

/-- A sample composite result with a logo. -/
def samplePdfResultWithLogo : PdfDbResult :=
  { booking := sampleBooking
    assets := [sampleAsset]
    organization := some sampleOrgWithLogo
    assetIdToQrCodeMap := [] }

/-- Witness for C7: with the `Man` logo bytes the header embeds the
`TWFu` data URI. -/
theorem getBookingAssetsCustomHeader_img_src_witness :
    samplePdfResultWithLogo.organization.bind
        (fun o => o.image.map (fun i => i.blob)) = some [77, 97, 110] ∧
    getBookingAssetsCustomHeader samplePdfResultWithLogo =
      headerPrefix ++ ("data:image/png;base64," ++ base64Encode [77, 97, 110]) ++
        headerAfterSrc ++ jsStrOr samplePdfResultWithLogo.booking.name "" ++
        headerSuffix ∧
    base64Encode [77, 97, 110] = "TWFu" :=
  ⟨rfl,
    (getBookingAssetsCustomHeader_img_src samplePdfResultWithLogo).2
      [77, 97, 110] rfl,
    rfl⟩

/-- Claim C10: with `open = false` the dialog renders `null` and installs
no backdrop handler; with `open = true` it renders the backdrop (whose
click handler navigates back) holding the dialog element that contains the
children. -/
theorem Dialog_open_gates_rendering (children : VNode) (prevRoute : String) :
    Dialog children false prevRoute = none ∧
    rendersBackdropHandler (Dialog children false prevRoute) = false ∧
    ∃ inner, Dialog children true prevRoute =
        some (.elem "div" "dialog-backdrop" (some prevRoute)
          [.elem "dialog" "dialog" none inner]) ∧
      children ∈ inner ∧
      rendersBackdropHandler (Dialog children true prevRoute) = true := by
  refine ⟨rfl, rfl, [closeButton prevRoute, children], rfl, ?_, rfl⟩
  simp

end Shelf
